import Mathlib

/-!
Shallow embedding of the initial constraint generator of
src/lib/Dialect/Basicpy/Transforms/CPATypeInference.cpp
(class InitialConstraintGenerator and its runOnFunction walk).

Values are SSA values carrying a declared type that is either the
UnknownType placeholder or an opaque concrete descriptor.  Type nodes
(CPA::TypeBase) are either type variables (cpaContext.newTypeVar, a fresh
node per allocation, tied to the originating value) or interned IR value
types (cpaContext.getIRValueType, interned by structural equality of the
descriptor, which the irValue constructor models directly).  The walk is
a fold over the list of child operations in walk order; WalkResult
interrupt stops it, mirroring mlir WalkResult semantics.
-/

/-- Declared type of a value: the UnknownType placeholder or an opaque,
equality-comparable concrete descriptor (keyed by a natural number). -/
inductive MType where
  | unknown : MType
  | concrete : Nat → MType
deriving DecidableEq

/-- An SSA value: identity (id) plus its declared type (value.getType()). -/
structure Value where
  ident : Nat
  type : MType
deriving DecidableEq

/-- CPA type node (CPA::TypeBase): a type variable tied to its originating
value (newTypeVar, fresh id per allocation) or an interned IR value type
(getIRValueType; interning by descriptor equality is modelled by the
constructor being keyed on the descriptor itself). -/
inductive TypeNode where
  | typeVar (varId : Nat) (origin : Value)
  | irValue (t : MType)
deriving DecidableEq

/-- A subtyping constraint edge: subNode must be usable where superNode is
expected (sub is a subtype of super); contextOp is the id of the op that
generated it (setContextOp). -/
structure Constraint where
  superNode : TypeNode
  subNode : TypeNode
  contextOp : Nat
deriving DecidableEq

/-- Severity of an emitted diagnostic (emitOpError / emitWarning /
emitRemark). -/
inductive Severity where
  | fatal
  | warning
  | remark
deriving DecidableEq

/-- One emitted diagnostic: severity and the id of the op it points at. -/
structure Diag where
  severity : Severity
  opId : Nat
deriving DecidableEq

/-- Result of visiting one op in the walk (mlir::WalkResult). -/
inductive WalkResult where
  | advance
  | interrupt
deriving DecidableEq

/-- mlir::LogicalResult. -/
inductive LogicalResult where
  | success
  | failure
deriving DecidableEq

/-- mlir::success(isSuccess): success when the argument is true, failure
otherwise. -/
def logicalSuccess (isSuccess : Bool) : LogicalResult :=
  if isSuccess then LogicalResult.success else LogicalResult.failure

/-- The op shapes the walk dispatches on, in the order of the dyn_cast
cascade of runOnFunction.  Each carries the id used for diagnostics and
constraint context.  scfYield carries the results of its parent scf op
(yieldOp.getParentOp()->getResults()).  returnLike carries whether its
direct parent is the function being walked (childOp->getParentOp() ==
funcOp). -/
inductive Op where
  | select (opId : Nat) (trueValue falseValue : Value)
  | toBoolean (opId : Nat) (operand : Value)
  | scfIf (opId : Nat) (results : List Value)
  | scfYield (opId : Nat) (operands : List Value) (parentResults : List Value)
  | unknownCast (opId : Nat) (operand result : Value)
  | binaryExpr (opId : Nat) (left right result : Value)
  | binaryCompare (opId : Nat) (left right : Value)
  | constantLike (opId : Nat) (result : Value)
  | returnLike (opId : Nat) (operands : List Value) (parentIsFunc : Bool)
  | other (opId : Nat)
deriving DecidableEq

/-- Operand list of an op (only return-like ops are ever stored in
funcReturnOp and queried for operands, mirroring getOperands /
getNumOperands at lines 158 and 162 of the source). -/
def Op.getOperands : Op → List Value
  | Op.returnLike _ vs _ => vs
  | _ => []

/-- Run state of one InitialConstraintGenerator invocation: the fresh
type-variable counter of the arena, the value-to-type memo table
(valueTypeMap), the TypeVarSet and ConstraintSet output collections, the
last recorded function-level return (funcReturnOp), the nested-region
return-like list (innerReturnLikeOps), and the emitted diagnostics. -/
structure GenState where
  nextVarId : Nat
  valueTypeMap : List (Value × TypeNode)
  typeVars : List TypeNode
  constraints : List Constraint
  funcReturnOp : Option Op
  innerReturnLikeOps : List Op
  diags : List Diag
deriving DecidableEq

/-- Fresh state at the start of one run. -/
def initState : GenState :=
  { nextVarId := 0
    valueTypeMap := []
    typeVars := []
    constraints := []
    funcReturnOp := none
    innerReturnLikeOps := []
    diags := [] }

/-- Lookup in the value-to-type memo table. -/
def lookupMemo : List (Value × TypeNode) → Value → Option TypeNode
  | [], _ => none
  | e :: rest, v => if e.1 = v then some e.2 else lookupMemo rest v

/-- InitialConstraintGenerator::resolveValueType (lines 47-64): memoized;
an unknown-typed value allocates a fresh type variable, records it in the
TypeVarSet and caches it; a concretely typed value interns the IR type
and caches it. -/
def resolveValueType (s : GenState) (v : Value) : TypeNode × GenState :=
  match lookupMemo s.valueTypeMap v with
  | some t => (t, s)
  | none =>
    match v.type with
    | MType.unknown =>
      let tv := TypeNode.typeVar s.nextVarId v
      (tv, { s with
              nextVarId := s.nextVarId + 1
              valueTypeMap := (v, tv) :: s.valueTypeMap
              typeVars := s.typeVars ++ [tv] })
    | MType.concrete d =>
      let t := TypeNode.irValue (MType.concrete d)
      (t, { s with valueTypeMap := (v, t) :: s.valueTypeMap })

/-- The node resolveValueType returns for a value in a given state. -/
def resolvedNode (s : GenState) (v : Value) : TypeNode :=
  (resolveValueType s v).1

/-- The state after resolveValueType. -/
def resolvedState (s : GenState) (v : Value) : GenState :=
  (resolveValueType s v).2

/-- InitialConstraintGenerator::addSubtypeConstraint (lines 66-73):
resolve the super value then the sub value, allocate the constraint edge
and append it to the ConstraintSet. -/
def addSubtypeConstraint (s : GenState) (superValue subValue : Value)
    (ctx : Nat) : GenState :=
  let r1 := resolveValueType s superValue
  let r2 := resolveValueType r1.2 subValue
  { r2.2 with constraints := r2.2.constraints ++ [⟨r1.1, r2.1, ctx⟩] }

/-- Fold addSubtypeConstraint over a list of (super, sub) value pairs, as
the llvm::zip loops at lines 123-127 and 162-165 do. -/
def addAllConstraints (s : GenState) (ps : List (Value × Value))
    (ctx : Nat) : GenState :=
  ps.foldl (fun st p => addSubtypeConstraint st p.1 p.2 ctx) s

/-- Resolve every value of a list in order (entry block arguments at
lines 82-84, scf.if results at lines 111-113). -/
def resolveAll (s : GenState) (vs : List Value) : GenState :=
  vs.foldl (fun st v => (resolveValueType st v).2) s

/-- One step of the walk callback of runOnFunction (lines 88-177),
dispatching on the op shape in cascade order.  A function-level
return-like op with a recorded predecessor of different operand count
emits an error and interrupts; a matching one is constrained pairwise
against the predecessor and then recorded as the new funcReturnOp (line
167 runs on every function-level return).  A nested-region return-like op
is appended to innerReturnLikeOps and then falls through to the final
emitRemark, as does any unrecognized op. -/
def processOp (s : GenState) : Op → WalkResult × GenState
  | Op.select opId tv fv =>
    (WalkResult.advance, addSubtypeConstraint s tv fv opId)
  | Op.toBoolean _ operand =>
    (WalkResult.advance, (resolveValueType s operand).2)
  | Op.scfIf _ results =>
    (WalkResult.advance, resolveAll s results)
  | Op.scfYield opId operands parentResults =>
    if parentResults.length ≠ operands.length then
      (WalkResult.advance,
        { s with diags := s.diags ++ [⟨Severity.warning, opId⟩] })
    else
      (WalkResult.advance,
        addAllConstraints s (operands.zip parentResults) opId)
  | Op.unknownCast opId operand result =>
    (WalkResult.advance, addSubtypeConstraint s operand result opId)
  | Op.binaryExpr opId l r res =>
    (WalkResult.advance,
      addSubtypeConstraint (addSubtypeConstraint s l r opId) l res opId)
  | Op.binaryCompare opId l r =>
    (WalkResult.advance, addSubtypeConstraint s l r opId)
  | Op.constantLike _ result =>
    (WalkResult.advance, (resolveValueType s result).2)
  | Op.returnLike opId vs true =>
    (match s.funcReturnOp with
     | some prev =>
       if prev.getOperands.length ≠ vs.length then
         (WalkResult.interrupt,
           { s with diags := s.diags ++ [⟨Severity.fatal, opId⟩] })
       else
         (WalkResult.advance,
           { addAllConstraints s (prev.getOperands.zip vs) opId with
               funcReturnOp := some (Op.returnLike opId vs true) })
     | none =>
       (WalkResult.advance,
         { s with funcReturnOp := some (Op.returnLike opId vs true) }))
  | Op.returnLike opId vs false =>
    (WalkResult.advance,
      { s with
          innerReturnLikeOps :=
            s.innerReturnLikeOps ++ [Op.returnLike opId vs false]
          diags := s.diags ++ [⟨Severity.remark, opId⟩] })
  | Op.other opId =>
    (WalkResult.advance,
      { s with diags := s.diags ++ [⟨Severity.remark, opId⟩] })

/-- The walk over the child ops: returns whether it was interrupted
(WalkResult::wasInterrupted) and the final state. -/
def walkOps : GenState → List Op → Bool × GenState
  | s, [] => (false, s)
  | s, op :: rest =>
    match (processOp s op).1 with
    | WalkResult.interrupt => (true, (processOp s op).2)
    | WalkResult.advance => walkOps (processOp s op).2 rest

/-- A function body: entry block arguments and the child ops in walk
order (the funcOp itself is skipped by the childOp == funcOp test). -/
structure FuncBody where
  entryArgs : List Value
  ops : List Op
deriving DecidableEq

/-- A function: body is none when funcOp.getBody().empty(). -/
structure FuncOp where
  body : Option FuncBody
deriving DecidableEq

/-- InitialConstraintGenerator::runOnFunction (lines 75-180): empty body
returns success immediately; otherwise resolve entry block arguments,
walk the child ops, and return success(result.wasInterrupted()) exactly
as the source does at line 179. -/
def runOnFunction (f : FuncOp) : LogicalResult × GenState :=
  match f.body with
  | none => (LogicalResult.success, initState)
  | some b =>
    let s := resolveAll initState b.entryArgs
    let w := walkOps s b.ops
    (logicalSuccess w.1, w.2)

/-- Whether the walk of runOnFunction was interrupted (aborted on the
function-return arity mismatch, the only interrupting case). -/
def walkInterrupted (f : FuncOp) : Bool :=
  match f.body with
  | none => false
  | some b => (walkOps (resolveAll initState b.entryArgs) b.ops).1

/-- Whether a diagnostic is error-level. -/
def isErrorDiag : Diag → Bool
  | ⟨Severity.fatal, _⟩ => true
  | _ => false

/-- Number of error-level diagnostics in a list. -/
def errCount (ds : List Diag) : Nat :=
  (ds.filter isErrorDiag).length

/-! Concrete values and functions used to exercise the embedding. -/

/-- An unknown-typed value. -/
def uV : Value := ⟨0, MType.unknown⟩

/-- Unknown-typed entry argument. -/
def a1V : Value := ⟨1, MType.unknown⟩

/-- Unknown-typed entry argument. -/
def a2V : Value := ⟨2, MType.unknown⟩

/-- Unknown-typed entry argument. -/
def a3V : Value := ⟨3, MType.unknown⟩

/-- Unknown-typed entry argument. -/
def bV : Value := ⟨4, MType.unknown⟩

/-- Unknown-typed yield operand. -/
def o1V : Value := ⟨5, MType.unknown⟩

/-- Unknown-typed yield operand. -/
def o2V : Value := ⟨6, MType.unknown⟩

/-- Unknown-typed yield operand. -/
def aV : Value := ⟨7, MType.unknown⟩

/-- Unknown-typed scf.if result. -/
def rv1V : Value := ⟨8, MType.unknown⟩

/-- Unknown-typed scf.if result. -/
def rv2V : Value := ⟨9, MType.unknown⟩

/-- A function with one nullary direct return: the walk completes without
abort. -/
def noMismatchFn : FuncOp :=
  ⟨some ⟨[], [Op.returnLike 5 [] true]⟩⟩

/-- A function whose second direct return has a different operand count
than its first. -/
def mismatchFn : FuncOp :=
  ⟨some ⟨[bV], [Op.returnLike 6 [bV] true, Op.returnLike 7 [] true]⟩⟩

/-- A function with three same-arity direct returns over distinct
unknown-typed arguments. -/
def threeRetFn : FuncOp :=
  ⟨some ⟨[a1V, a2V, a3V],
    [Op.returnLike 10 [a1V] true,
     Op.returnLike 11 [a2V] true,
     Op.returnLike 12 [a3V] true]⟩⟩

/-- A function whose walk has recorded one direct return; its entry
arguments (and hence all return operands used later) are memoized. -/
def twoRetPreFn : FuncOp :=
  ⟨some ⟨[a1V, a2V], [Op.returnLike 10 [a1V] true]⟩⟩

/-- A join construct with two results fed by a yield with one operand
(arity mismatch), in post-order walk order. -/
def yieldMismatchFn : FuncOp :=
  ⟨some ⟨[], [Op.scfYield 1 [aV] [rv1V, rv2V], Op.scfIf 2 [rv1V, rv2V]]⟩⟩

/-- A join construct with two results fed by a yield with two operands
(arities match). -/
def yieldMatchFn : FuncOp :=
  ⟨some ⟨[o1V, o2V],
    [Op.scfYield 1 [o1V, o2V] [rv1V, rv2V], Op.scfIf 2 [rv1V, rv2V]]⟩⟩

/-- A function with one direct return and one nested-region return. -/
def nestedRetFn : FuncOp :=
  ⟨some ⟨[], [Op.returnLike 20 [] true, Op.returnLike 21 [] false]⟩⟩

/-! Helper lemmas about the resolver and the walk. -/

theorem resolve_memoized (s : GenState) (v : Value) (t : TypeNode)
    (h : lookupMemo s.valueTypeMap v = some t) :
    resolveValueType s v = (t, s) := by
  unfold resolveValueType
  rw [h]

theorem resolve_self_memo (s : GenState) (v : Value) :
    lookupMemo (resolveValueType s v).2.valueTypeMap v =
      some (resolveValueType s v).1 := by
  unfold resolveValueType
  cases hl : lookupMemo s.valueTypeMap v with
  | some u => simpa using hl
  | none => cases ht : v.type <;> simp [lookupMemo]

theorem resolve_preserves_memo (s : GenState) (v x : Value) (t : TypeNode)
    (h : lookupMemo s.valueTypeMap x = some t) :
    lookupMemo (resolveValueType s v).2.valueTypeMap x = some t := by
  unfold resolveValueType
  cases hl : lookupMemo s.valueTypeMap v with
  | some u => simpa using h
  | none =>
    by_cases hvx : v = x
    · subst hvx
      rw [h] at hl
      cases hl
    · cases ht : v.type <;> simp [lookupMemo, hvx, h]

theorem resolve_constraints (s : GenState) (v : Value) :
    (resolveValueType s v).2.constraints = s.constraints := by
  unfold resolveValueType
  cases hl : lookupMemo s.valueTypeMap v with
  | some u => rfl
  | none => cases ht : v.type <;> rfl

theorem resolve_diags (s : GenState) (v : Value) :
    (resolveValueType s v).2.diags = s.diags := by
  unfold resolveValueType
  cases hl : lookupMemo s.valueTypeMap v with
  | some u => rfl
  | none => cases ht : v.type <;> rfl

theorem resolveAll_diags (vs : List Value) :
    ∀ s : GenState, (resolveAll s vs).diags = s.diags := by
  induction vs with
  | nil => intro s; rfl
  | cons v rest ih =>
    intro s
    calc (resolveAll (resolveValueType s v).2 rest).diags
        = (resolveValueType s v).2.diags := ih _
      _ = s.diags := resolve_diags s v

theorem addSubtype_diags (s : GenState) (a b : Value) (ctx : Nat) :
    (addSubtypeConstraint s a b ctx).diags = s.diags := by
  simp [addSubtypeConstraint, resolve_diags]

theorem addAll_diags (ps : List (Value × Value)) (ctx : Nat) :
    ∀ s : GenState, (addAllConstraints s ps ctx).diags = s.diags := by
  induction ps with
  | nil => intro s; rfl
  | cons p rest ih =>
    intro s
    calc (addAllConstraints (addSubtypeConstraint s p.1 p.2 ctx) rest ctx).diags
        = (addSubtypeConstraint s p.1 p.2 ctx).diags := ih _
      _ = s.diags := addSubtype_diags s p.1 p.2 ctx

theorem errCount_append (ds es : List Diag) :
    errCount (ds ++ es) = errCount ds + errCount es := by
  simp [errCount, List.filter_append]

theorem addSubtype_constraints (s : GenState) (a b : Value) (ctx : Nat) :
    (addSubtypeConstraint s a b ctx).constraints =
      s.constraints ++
        [⟨resolvedNode s a, resolvedNode (resolvedState s a) b, ctx⟩] := by
  simp [addSubtypeConstraint, resolvedNode, resolvedState, resolve_constraints]

theorem addSubtype_memoized (s : GenState) (a b : Value) (ctx : Nat)
    (na nb : TypeNode)
    (ha : lookupMemo s.valueTypeMap a = some na)
    (hb : lookupMemo s.valueTypeMap b = some nb) :
    addSubtypeConstraint s a b ctx =
      { s with constraints := s.constraints ++ [⟨na, nb, ctx⟩] } := by
  simp [addSubtypeConstraint, resolve_memoized s a na ha,
        resolve_memoized s b nb hb]

theorem resolvedNode_memoized (s : GenState) (v : Value) (t : TypeNode)
    (h : lookupMemo s.valueTypeMap v = some t) :
    resolvedNode s v = t := by
  simp [resolvedNode, resolve_memoized s v t h]

theorem addAllConstraints_memoized (ctx : Nat) (ps : List (Value × Value)) :
    ∀ s : GenState,
      (∀ p ∈ ps, (lookupMemo s.valueTypeMap p.1).isSome = true ∧
                 (lookupMemo s.valueTypeMap p.2).isSome = true) →
      addAllConstraints s ps ctx =
        { s with constraints := s.constraints ++
            ps.map (fun p => ⟨resolvedNode s p.1, resolvedNode s p.2, ctx⟩) } := by
  induction ps with
  | nil => intro s _; simp [addAllConstraints]
  | cons p rest ih =>
    intro s h
    obtain ⟨h1, h2⟩ := h p (List.mem_cons_self p rest)
    obtain ⟨na, hna⟩ := Option.isSome_iff_exists.mp h1
    obtain ⟨nb, hnb⟩ := Option.isSome_iff_exists.mp h2
    have hstep : addSubtypeConstraint s p.1 p.2 ctx =
        { s with constraints := s.constraints ++ [⟨na, nb, ctx⟩] } :=
      addSubtype_memoized s p.1 p.2 ctx na nb hna hnb
    have hunf : addAllConstraints s (p :: rest) ctx =
        addAllConstraints (addSubtypeConstraint s p.1 p.2 ctx) rest ctx := rfl
    have hrest : ∀ q ∈ rest,
        (lookupMemo ({ s with constraints := s.constraints ++ [⟨na, nb, ctx⟩] }
            : GenState).valueTypeMap q.1).isSome = true ∧
        (lookupMemo ({ s with constraints := s.constraints ++ [⟨na, nb, ctx⟩] }
            : GenState).valueTypeMap q.2).isSome = true :=
      fun q hq => h q (List.mem_cons_of_mem p hq)
    rw [hunf, hstep, ih _ hrest]
    have hmap : rest.map (fun q =>
          (⟨resolvedNode { s with
              constraints := s.constraints ++ [⟨na, nb, ctx⟩] } q.1,
            resolvedNode { s with
              constraints := s.constraints ++ [⟨na, nb, ctx⟩] } q.2,
            ctx⟩ : Constraint)) =
        rest.map (fun q => ⟨resolvedNode s q.1, resolvedNode s q.2, ctx⟩) := by
      apply List.map_congr_left
      intro q hq
      obtain ⟨hq1, hq2⟩ := h q (List.mem_cons_of_mem p hq)
      obtain ⟨ma, hma⟩ := Option.isSome_iff_exists.mp hq1
      obtain ⟨mb, hmb⟩ := Option.isSome_iff_exists.mp hq2
      have hma2 : lookupMemo ({ s with
          constraints := s.constraints ++ [⟨na, nb, ctx⟩] } :
            GenState).valueTypeMap q.1 = some ma := hma
      have hmb2 : lookupMemo ({ s with
          constraints := s.constraints ++ [⟨na, nb, ctx⟩] } :
            GenState).valueTypeMap q.2 = some mb := hmb
      rw [resolvedNode_memoized _ q.1 ma hma2,
          resolvedNode_memoized _ q.2 mb hmb2,
          resolvedNode_memoized s q.1 ma hma,
          resolvedNode_memoized s q.2 mb hmb]
    rw [hmap]
    simp [resolvedNode_memoized s p.1 na hna, resolvedNode_memoized s p.2 nb hnb]

theorem processOp_advance_errCount (s : GenState) (op : Op)
    (h : (processOp s op).1 = WalkResult.advance) :
    errCount (processOp s op).2.diags = errCount s.diags := by
  cases op with
  | select opId tv fv => simp [processOp, addSubtype_diags]
  | toBoolean opId operand => simp [processOp, resolve_diags]
  | scfIf opId results => simp [processOp, resolveAll_diags]
  | scfYield opId operands parentResults =>
    by_cases hl : parentResults.length ≠ operands.length
    · simp [processOp, hl, errCount, List.filter_append, isErrorDiag]
    · simp [processOp, hl, addAll_diags]
  | unknownCast opId operand result => simp [processOp, addSubtype_diags]
  | binaryExpr opId l r res => simp [processOp, addSubtype_diags]
  | binaryCompare opId l r => simp [processOp, addSubtype_diags]
  | constantLike opId result => simp [processOp, resolve_diags]
  | returnLike opId vs parentIsFunc =>
    cases parentIsFunc with
    | true =>
      cases hf : s.funcReturnOp with
      | none => simp [processOp, hf]
      | some prev =>
        by_cases hl : prev.getOperands.length ≠ vs.length
        · simp [processOp, hf, hl] at h
        · simp [processOp, hf, hl, addAll_diags]
    | false =>
      simp [processOp, errCount, List.filter_append, isErrorDiag]
  | other opId =>
    simp [processOp, errCount, List.filter_append, isErrorDiag]

theorem walkOps_errCount (ops : List Op) :
    ∀ s : GenState, (walkOps s ops).1 = false →
      errCount (walkOps s ops).2.diags = errCount s.diags := by
  induction ops with
  | nil => intro s _; rfl
  | cons op rest ih =>
    intro s h
    cases hp : (processOp s op).1 with
    | interrupt => simp [walkOps, hp] at h
    | advance =>
      simp only [walkOps, hp] at h ⊢
      calc errCount (walkOps (processOp s op).2 rest).2.diags
          = errCount (processOp s op).2.diags := ih _ h
        _ = errCount s.diags := processOp_advance_errCount s op hp

theorem walkOps_append (ys xs : List Op) :
    ∀ s : GenState, (walkOps s xs).1 = false →
      walkOps s (xs ++ ys) = walkOps (walkOps s xs).2 ys := by
  induction xs with
  | nil => intro s _; rfl
  | cons op rest ih =>
    intro s h
    cases hp : (processOp s op).1 with
    | interrupt => simp [walkOps, hp] at h
    | advance =>
      simp only [List.cons_append, walkOps, hp] at h ⊢
      exact ih _ h

/-! Claim theorems. -/

/-- Claim C1 (code bug): the claim states that runOnFunction reports
failure if and only if the walk aborted on a function-level return arity
mismatch.  The source line 179 returns success(result.wasInterrupted()),
which is the exact inverse: a run whose walk completes without abort
(noMismatchFn) reports failure, and a run whose walk aborts on the arity
mismatch with one error diagnostic (mismatchFn) reports success. -/
theorem run_result_inverted :
    walkInterrupted noMismatchFn = false ∧
    (runOnFunction noMismatchFn).1 = LogicalResult.failure ∧
    walkInterrupted mismatchFn = true ∧
    (runOnFunction mismatchFn).1 = LogicalResult.success ∧
    errCount (runOnFunction mismatchFn).2.diags = 1 := by
  decide

/-- Claim C2 (counterexample): on a function with three same-arity direct
returns (operands a1V, a2V, a3V), the recorded return op after the run is
the third return, not the first (so it is not set at most once), and the
second batch of constraints pairs the third return against the second
return (supertype node is the type variable of a2V), not against the
first as the claim asserts. -/
theorem canonical_return_counterexample :
    (runOnFunction threeRetFn).2.funcReturnOp =
      some (Op.returnLike 12 [a3V] true) ∧
    Op.returnLike 12 [a3V] true ≠ Op.returnLike 10 [a1V] true ∧
    (runOnFunction threeRetFn).2.constraints =
      [⟨TypeNode.typeVar 0 a1V, TypeNode.typeVar 1 a2V, 11⟩,
       ⟨TypeNode.typeVar 1 a2V, TypeNode.typeVar 2 a3V, 12⟩] ∧
    (runOnFunction threeRetFn).2.constraints ≠
      [⟨TypeNode.typeVar 0 a1V, TypeNode.typeVar 1 a2V, 11⟩,
       ⟨TypeNode.typeVar 0 a1V, TypeNode.typeVar 2 a3V, 12⟩] := by
  decide

/-- Claim C2 (amended): the recorded return is the most recently seen
function-level return, updated on every sighting; a later function-level
return with matching operand count advances the walk, is constrained
positionally against the immediately preceding function-level return
(current operand as subtype of the previous return operand), and then
replaces it as the recorded return. -/
theorem later_return_constrained_against_previous (s : GenState)
    (opId : Nat) (vs : List Value) (prev : Op)
    (hprev : s.funcReturnOp = some prev)
    (hlen : prev.getOperands.length = vs.length)
    (hmem : ∀ p ∈ prev.getOperands.zip vs,
      (lookupMemo s.valueTypeMap p.1).isSome = true ∧
      (lookupMemo s.valueTypeMap p.2).isSome = true) :
    processOp s (Op.returnLike opId vs true) =
      (WalkResult.advance,
        { s with
            constraints := s.constraints ++
              (prev.getOperands.zip vs).map
                (fun p => ⟨resolvedNode s p.1, resolvedNode s p.2, opId⟩)
            funcReturnOp := some (Op.returnLike opId vs true) }) := by
  have hadd := addAllConstraints_memoized opId (prev.getOperands.zip vs) s hmem
  simp [processOp, hprev, hlen, hadd]

/-- Witness for the amended C2 theorem: after a run that recorded the
return with operand a1V and memoized a1V and a2V, processing a second
direct return with operand a2V advances, pairs a2V under a1V, and
replaces the recorded return. -/
theorem later_return_constrained_witness :
    processOp (runOnFunction twoRetPreFn).2 (Op.returnLike 11 [a2V] true) =
      (WalkResult.advance,
        { (runOnFunction twoRetPreFn).2 with
            constraints := (runOnFunction twoRetPreFn).2.constraints ++
              ((Op.returnLike 10 [a1V] true).getOperands.zip [a2V]).map
                (fun p =>
                  ⟨resolvedNode (runOnFunction twoRetPreFn).2 p.1,
                   resolvedNode (runOnFunction twoRetPreFn).2 p.2, 11⟩)
            funcReturnOp := some (Op.returnLike 11 [a2V] true) }) :=
  later_return_constrained_against_previous (runOnFunction twoRetPreFn).2
    11 [a2V] (Op.returnLike 10 [a1V] true) (by decide) (by decide) (by decide)

/-- Claim C3: when a function-level return-like op disagrees in operand
count with the recorded previous function-level return, the walk emits
exactly one error-level diagnostic, interrupts immediately, and the final
constraint set is exactly the one accumulated before the mismatching op
(the ops after it are never visited). -/
theorem return_arity_mismatch_aborts (s0 : GenState) (pre post : List Op)
    (opId : Nat) (vs : List Value) (prev : Op)
    (hpre : (walkOps s0 pre).1 = false)
    (hprev : (walkOps s0 pre).2.funcReturnOp = some prev)
    (hmis : prev.getOperands.length ≠ vs.length)
    (hs0 : errCount s0.diags = 0) :
    (walkOps s0 (pre ++ Op.returnLike opId vs true :: post)).1 = true ∧
    (walkOps s0 (pre ++ Op.returnLike opId vs true :: post)).2.constraints =
      (walkOps s0 pre).2.constraints ∧
    (walkOps s0 (pre ++ Op.returnLike opId vs true :: post)).2.diags =
      (walkOps s0 pre).2.diags ++ [⟨Severity.fatal, opId⟩] ∧
    errCount
      (walkOps s0 (pre ++ Op.returnLike opId vs true :: post)).2.diags = 1 := by
  have happ := walkOps_append (Op.returnLike opId vs true :: post) pre s0 hpre
  have hstep : processOp (walkOps s0 pre).2 (Op.returnLike opId vs true) =
      (WalkResult.interrupt,
        { (walkOps s0 pre).2 with
            diags := (walkOps s0 pre).2.diags ++ [⟨Severity.fatal, opId⟩] }) := by
    simp [processOp, hprev, hmis]
  have hwalk : walkOps (walkOps s0 pre).2 (Op.returnLike opId vs true :: post) =
      (true,
        { (walkOps s0 pre).2 with
            diags := (walkOps s0 pre).2.diags ++ [⟨Severity.fatal, opId⟩] }) := by
    simp [walkOps, hstep]
  rw [happ, hwalk]
  refine ⟨rfl, rfl, rfl, ?_⟩
  have hpreErr := walkOps_errCount pre s0 hpre
  have hone : errCount ((walkOps s0 pre).2.diags ++
      [⟨Severity.fatal, opId⟩]) = 1 := by
    rw [errCount_append, hpreErr, hs0]
    rfl
  exact hone

/-- Witness for C3: starting from the fresh state, a unary direct return
followed by a nullary direct return interrupts the walk with one error
diagnostic, and the op after the mismatch contributes nothing. -/
theorem return_arity_mismatch_witness :
    (walkOps initState
      ([Op.returnLike 10 [a1V] true] ++
        Op.returnLike 11 [] true :: [Op.other 99])).1 = true ∧
    (walkOps initState
      ([Op.returnLike 10 [a1V] true] ++
        Op.returnLike 11 [] true :: [Op.other 99])).2.constraints =
      (walkOps initState [Op.returnLike 10 [a1V] true]).2.constraints ∧
    (walkOps initState
      ([Op.returnLike 10 [a1V] true] ++
        Op.returnLike 11 [] true :: [Op.other 99])).2.diags =
      (walkOps initState [Op.returnLike 10 [a1V] true]).2.diags ++
        [⟨Severity.fatal, 11⟩] ∧
    errCount
      (walkOps initState
        ([Op.returnLike 10 [a1V] true] ++
          Op.returnLike 11 [] true :: [Op.other 99])).2.diags = 1 :=
  return_arity_mismatch_aborts initState [Op.returnLike 10 [a1V] true]
    [Op.other 99] 11 [] (Op.returnLike 10 [a1V] true)
    (by decide) (by decide) (by decide) (by decide)

/-- Claim C4: resolveValueType is memoized and total.  Resolving a value
again right after resolving it returns the identical node and leaves the
state unchanged; the first resolution of an unknown-typed value creates
exactly one type variable and appends it exactly once to the TypeVarSet;
a cached value resolves to the cached node with no state change; and as a
Lean function the resolver is total, so resolution never fails. -/
theorem resolveValueType_memoized_total (s : GenState) (v : Value) :
    resolveValueType (resolveValueType s v).2 v =
      ((resolveValueType s v).1, (resolveValueType s v).2) ∧
    (lookupMemo s.valueTypeMap v = none → v.type = MType.unknown →
      (resolveValueType s v).1 = TypeNode.typeVar s.nextVarId v ∧
      (resolveValueType s v).2.typeVars =
        s.typeVars ++ [TypeNode.typeVar s.nextVarId v]) ∧
    (∀ t : TypeNode, lookupMemo s.valueTypeMap v = some t →
      resolveValueType s v = (t, s)) := by
  refine ⟨?_, ?_, ?_⟩
  · exact resolve_memoized _ v _ (resolve_self_memo s v)
  · intro h1 h2
    simp [resolveValueType, h1, h2]
  · intro t h
    exact resolve_memoized s v t h

/-- Witness for C4 at the unknown-typed value uV in the fresh state. -/
theorem resolveValueType_memoized_total_witness :
    resolveValueType (resolveValueType initState uV).2 uV =
      ((resolveValueType initState uV).1, (resolveValueType initState uV).2) ∧
    (resolveValueType initState uV).1 =
      TypeNode.typeVar initState.nextVarId uV ∧
    (resolveValueType initState uV).2.typeVars =
      initState.typeVars ++ [TypeNode.typeVar initState.nextVarId uV] :=
  ⟨(resolveValueType_memoized_total initState uV).1,
   (resolveValueType_memoized_total initState uV).2.1 (by decide) (by decide)⟩

/-- Claim C5: a selection op emits exactly one constraint, whose
supertype node is the resolved true-branch operand and whose subtype node
is the resolved false-branch operand, and the walk advances. -/
theorem select_constraint_orientation (s : GenState) (opId : Nat)
    (vt vf : Value) :
    (processOp s (Op.select opId vt vf)).1 = WalkResult.advance ∧
    (processOp s (Op.select opId vt vf)).2.constraints =
      s.constraints ++
        [⟨resolvedNode s vt, resolvedNode (resolvedState s vt) vf, opId⟩] := by
  exact ⟨rfl, addSubtype_constraints s vt vf opId⟩

/-- Claim C6: a binary arithmetic op emits exactly two constraints, both
with the resolved left operand as supertype: right under left, then
result under left, and the walk advances. -/
theorem binary_expr_constraints (s : GenState) (opId : Nat)
    (l r res : Value) :
    (processOp s (Op.binaryExpr opId l r res)).1 = WalkResult.advance ∧
    (processOp s (Op.binaryExpr opId l r res)).2.constraints =
      s.constraints ++
        [⟨resolvedNode s l, resolvedNode (resolvedState s l) r, opId⟩,
         ⟨resolvedNode s l,
          resolvedNode (addSubtypeConstraint s l r opId) res, opId⟩] := by
  have hmemo : lookupMemo (addSubtypeConstraint s l r opId).valueTypeMap l =
      some (resolvedNode s l) :=
    resolve_preserves_memo (resolvedState s l) r l (resolvedNode s l)
      (resolve_self_memo s l)
  have hAl : resolveValueType (addSubtypeConstraint s l r opId) l =
      (resolvedNode s l, addSubtypeConstraint s l r opId) :=
    resolve_memoized _ l _ hmemo
  refine ⟨rfl, ?_⟩
  show (addSubtypeConstraint (addSubtypeConstraint s l r opId) l res
      opId).constraints = _
  rw [addSubtype_constraints, addSubtype_constraints]
  have h1 : resolvedNode (addSubtypeConstraint s l r opId) l =
      resolvedNode s l := by
    simp [resolvedNode, hAl]
  have h2 : resolvedState (addSubtypeConstraint s l r opId) l =
      addSubtypeConstraint s l r opId := by
    simp [resolvedState, hAl]
  rw [h1, h2]
  simp

/-- Claim C7 (code bug): on a join with two results fed by a yield with
one operand, the yield emits a warning, generates zero constraints, and
the walk completes without interruption; but the run reports failure, not
success, because of the inverted success(result.wasInterrupted()) at line
179.  On matching arities, one constraint per position is emitted with
the yielded operand as supertype and the join result as subtype. -/
theorem yield_arity_mismatch_behavior :
    (runOnFunction yieldMismatchFn).1 = LogicalResult.failure ∧
    walkInterrupted yieldMismatchFn = false ∧
    (runOnFunction yieldMismatchFn).2.diags = [⟨Severity.warning, 1⟩] ∧
    (runOnFunction yieldMismatchFn).2.constraints = [] ∧
    (runOnFunction yieldMatchFn).2.constraints =
      [⟨TypeNode.typeVar 0 o1V, TypeNode.typeVar 2 rv1V, 1⟩,
       ⟨TypeNode.typeVar 1 o2V, TypeNode.typeVar 3 rv2V, 1⟩] ∧
    (runOnFunction yieldMatchFn).2.diags = [] := by
  decide

/-- Claim C8: a return-like op whose direct parent is not the function
advances the walk, adds no constraint, leaves the recorded function
return untouched, and is appended to the inner return-like list; on the
concrete nestedRetFn the inner list after the run holds exactly the
nested return, no constraint was generated, and the recorded function
return is the direct return. -/
theorem nested_return_not_constrained (s : GenState) (opId : Nat)
    (vs : List Value) :
    (processOp s (Op.returnLike opId vs false)).1 = WalkResult.advance ∧
    (processOp s (Op.returnLike opId vs false)).2.constraints =
      s.constraints ∧
    (processOp s (Op.returnLike opId vs false)).2.funcReturnOp =
      s.funcReturnOp ∧
    (processOp s (Op.returnLike opId vs false)).2.innerReturnLikeOps =
      s.innerReturnLikeOps ++ [Op.returnLike opId vs false] ∧
    (runOnFunction nestedRetFn).2.innerReturnLikeOps =
      [Op.returnLike 21 [] false] ∧
    (runOnFunction nestedRetFn).2.constraints = [] ∧
    (runOnFunction nestedRetFn).2.funcReturnOp =
      some (Op.returnLike 20 [] true) :=
  ⟨rfl, rfl, rfl, rfl, by decide, by decide, by decide⟩

/-- Claim C9: a function with an empty body succeeds trivially with empty
outputs: no value resolved, no type variable appended, no constraint
emitted, no diagnostic. -/
theorem empty_body_trivial_success :
    runOnFunction ⟨none⟩ = (LogicalResult.success, initState) ∧
    initState.valueTypeMap = [] ∧
    initState.typeVars = [] ∧
    initState.constraints = [] ∧
    initState.diags = [] :=
  ⟨rfl, rfl, rfl, rfl, rfl⟩

/-- Claim C10: a nested-region return-like op, after being appended to
the inner return-like list, falls through to the catch-all remark, so it
emits the same remark-level diagnostic as an op matching no recognized
shape. -/
theorem nested_return_emits_remark (s : GenState) (opId : Nat)
    (vs : List Value) :
    (processOp s (Op.returnLike opId vs false)).2.diags =
      s.diags ++ [⟨Severity.remark, opId⟩] ∧
    (processOp s (Op.other opId)).2.diags =
      s.diags ++ [⟨Severity.remark, opId⟩] ∧
    (processOp s (Op.returnLike opId vs false)).2.innerReturnLikeOps =
      s.innerReturnLikeOps ++ [Op.returnLike opId vs false] :=
  ⟨rfl, rfl, rfl⟩
